import Mathlib

/-!
Shallow embedding of the LebFix service-marketplace backend
(`backend/server.py`) and proofs about its booking lifecycle,
role-scoped authorization, pricing and profile operations.

Modelling conventions:
* MongoDB collections are Lean lists in natural (insertion) order;
  `find_one` is `List.find?`, `update_one` updates the first match,
  `insert_one` appends, `$addToSet` appends if absent.
* Generated uuids and `datetime.utcnow()` timestamps are passed to the
  operations as explicit `Nat` arguments (ids and times are `Nat`,
  money amounts are `Rat`).
* A Pydantic model serialized with `.dict()` writes every field, so a
  stored document created by this application always has every key.
  Fields that handlers read with `dict.get(key, default)` where the
  default is not `None` are modelled as `Option (Option Rat)`:
  `none` = key absent from the document, `some none` = key present
  holding null, `some (some r)` = key present holding the number `r`.
  Fields read with a `None` default collapse the two null-ish cases
  and are plain `Option _`.
* Raising `HTTPException` aborts the request before any further store
  write; each mutating handler therefore returns
  `Except HTTPError α × Store`, the second component being the store
  after the request (unchanged when an exception was raised before the
  writes, which is the case in every handler below).
-/

/-- `class UserRole(str, Enum)` in `server.py`. -/
inductive UserRole where
  | customer
  | freelance_fixer
  | employee_fixer
  | company
deriving DecidableEq, Repr

/-- `class ServiceCategory(str, Enum)` in `server.py`. -/
inductive ServiceCategory where
  | electrical
  | technical
  | mechanical
  | plumbing
deriving DecidableEq, Repr

/-- `class BookingStatus(str, Enum)` in `server.py`. -/
inductive BookingStatus where
  | pending
  | confirmed
  | in_progress
  | completed
  | cancelled
deriving DecidableEq, Repr

/-- The `User` Pydantic model (stored in the `users` collection). -/
structure UserDoc where
  id : Nat
  email : String
  name : String
  role : UserRole
  phone : Option String := none
  picture : Option String := none
  session_token : Option String := none
  created_at : Nat := 0
  company_id : Option Nat := none
  address : Option String := none
  working_hours : Option Unit := none
  is_available : Bool := true
deriving DecidableEq, Repr

/-- The `Company` Pydantic model (stored in the `companies` collection). -/
structure CompanyDoc where
  id : Nat
  name : String
  owner_id : Nat
  email : String
  phone : String
  address : String
  description : Option String := none
  service_categories : List ServiceCategory := []
  employees : List Nat := []
  created_at : Nat := 0
deriving DecidableEq, Repr

/-- The `ServiceProvider` Pydantic model (stored in `service_providers`).
`hourly_rate` and `emergency_rate` are read by `create_booking` via
`provider.get(key, default)` with a non-`None` default, so they keep the
three-way document encoding (`none` = key absent, `some none` = null,
`some (some r)` = number). Every provider this application inserts has
both keys present. -/
structure ProviderDoc where
  id : Nat
  user_id : Nat
  company_id : Option Nat := none
  service_categories : List ServiceCategory := []
  hourly_rate : Option (Option Rat) := some none
  emergency_rate : Option (Option Rat) := some none
  description : Option String := none
  rating : Rat := 0
  total_jobs : Nat := 0
  location : Option Unit := none
  availability : Option Unit := none
  created_at : Nat := 0
deriving DecidableEq, Repr

/-- The `Booking` Pydantic model (stored in the `bookings` collection).
`location` is an opaque payload (address and coordinates), modelled as a
`String`. -/
structure BookingDoc where
  id : Nat
  customer_id : Nat
  provider_id : Nat
  company_id : Option Nat := none
  service_category : ServiceCategory
  description : String
  scheduled_date : Nat
  status : BookingStatus := .pending
  price : Option Rat := none
  location : String
  emergency : Bool := false
  created_at : Nat := 0
  updated_at : Nat := 0
deriving DecidableEq, Repr

/-- The four persisted collections of the document store. -/
structure Store where
  users : List UserDoc := []
  companies : List CompanyDoc := []
  service_providers : List ProviderDoc := []
  bookings : List BookingDoc := []
deriving DecidableEq, Repr

/-- `HTTPException(status_code, detail)`. -/
structure HTTPError where
  code : Nat
  detail : String
deriving DecidableEq, Repr

/-- Mongo `update_one`: rewrite the first element matching `p` with `f`. -/
def update_first {α : Type _} (p : α → Bool) (f : α → α) : List α → List α
  | [] => []
  | x :: xs => if p x then f x :: xs else x :: update_first p f xs

/-- Python `dict.get(key, default)` on a three-way encoded document field:
an absent key yields the default, a present key yields its stored value,
null included. -/
def dictGet (field : Option (Option Rat)) (dflt : Rat) : Option Rat :=
  match field with
  | none => some dflt
  | some v => v

/-- The `BookingCreate` request model. -/
structure BookingCreate where
  provider_id : Nat
  service_category : ServiceCategory
  description : String
  scheduled_date : Nat
  location : String
  emergency : Bool := false
deriving DecidableEq, Repr

/-- `POST /api/auth/complete-profile` (`complete_profile` in `server.py`):
unconditionally `$set`s `role`, `phone` and `address` on the current user,
then inserts a `Company` when the chosen role is `company` and a default
`ServiceProvider` (rates 25.0 / 50.0) when it is `freelance_fixer`.
`freshId` stands for the generated uuid, `now` for `datetime.utcnow()`. -/
def complete_profile (s : Store) (current_user : UserDoc) (role : UserRole)
    (phone address : Option String) (freshId now : Nat) : Store :=
  let users := update_first (fun u => u.id == current_user.id)
    (fun u => { u with role := role, phone := phone, address := address }) s.users
  if role = .company then
    { s with
      users := users
      companies := s.companies ++
        [{ id := freshId
           name := current_user.name ++ "\x27s Company"
           owner_id := current_user.id
           email := current_user.email
           phone := phone.getD ""
           address := address.getD ""
           created_at := now }] }
  else if role = .freelance_fixer then
    { s with
      users := users
      service_providers := s.service_providers ++
        [{ id := freshId
           user_id := current_user.id
           service_categories := []
           hourly_rate := some (some 25)
           emergency_rate := some (some 50)
           created_at := now }] }
  else
    { s with users := users }

/-- The `update_data` `$set` of `update_provider_profile`: categories,
description and availability always; the rates additionally — and only —
when the caller is a `freelance_fixer` and the corresponding argument was
supplied. -/
def apply_provider_update (current_user : UserDoc)
    (service_categories : List ServiceCategory)
    (hourly_rate emergency_rate : Option Rat)
    (description : Option String) (working_hours : Option Unit)
    (p : ProviderDoc) : ProviderDoc :=
  let p := { p with
    service_categories := service_categories
    description := description
    availability := working_hours }
  if current_user.role = .freelance_fixer then
    let p := match hourly_rate with
      | some r => { p with hourly_rate := some (some r) }
      | none => p
    match emergency_rate with
      | some r => { p with emergency_rate := some (some r) }
      | none => p
  else p

/-- `POST /api/providers/profile` (`update_provider_profile`): 403 unless
the caller is a freelance or employee fixer, 404 when no `ServiceProvider`
has the caller's `user_id`; otherwise apply `apply_provider_update` to the
first matching provider. -/
def update_provider_profile (s : Store) (current_user : UserDoc)
    (service_categories : List ServiceCategory)
    (hourly_rate emergency_rate : Option Rat)
    (description : Option String) (working_hours : Option Unit) :
    Except HTTPError Unit × Store :=
  if ¬ (current_user.role = .freelance_fixer ∨ current_user.role = .employee_fixer) then
    (.error ⟨403, "Not authorized"⟩, s)
  else
    match s.service_providers.find? (fun p => p.user_id == current_user.id) with
    | none => (.error ⟨404, "Provider profile not found"⟩, s)
    | some _ =>
      let providers := update_first (fun p => p.user_id == current_user.id)
        (apply_provider_update current_user service_categories hourly_rate
          emergency_rate description working_hours)
        s.service_providers
      (.ok (), { s with service_providers := providers })

/-- Mongo `$addToSet {employees: eid}`: append `eid` unless present. -/
def addToSetEmployees (eid : Nat) (c : CompanyDoc) : CompanyDoc :=
  if eid ∈ c.employees then c else { c with employees := c.employees ++ [eid] }

/-- `POST /api/companies/add-employee` (`add_employee`): 403 unless the
caller's role is `company`; 404 when the caller owns no `Company` or no
user matches `employee_email`. On success: the target user's `role`
becomes `employee_fixer` and its `company_id` the company's id; a fresh
`ServiceProvider` with the given rates and categories is inserted
unconditionally; the target's id is `$addToSet` into the company's
`employees`. All three failure exits precede every write. -/
def add_employee (s : Store) (current_user : UserDoc) (employee_email : String)
    (hourly_rate emergency_rate : Rat) (service_categories : List ServiceCategory)
    (freshId now : Nat) : Except HTTPError Unit × Store :=
  if current_user.role ≠ .company then
    (.error ⟨403, "Not authorized"⟩, s)
  else
    match s.companies.find? (fun c => c.owner_id == current_user.id) with
    | none => (.error ⟨404, "Company not found"⟩, s)
    | some company =>
      match s.users.find? (fun u => u.email == employee_email) with
      | none => (.error ⟨404, "Employee not found"⟩, s)
      | some employee =>
        (.ok (),
          { users := update_first (fun u => u.id == employee.id)
              (fun u => { u with role := .employee_fixer, company_id := some company.id })
              s.users
            companies := update_first (fun c => c.id == company.id)
              (addToSetEmployees employee.id) s.companies
            service_providers := s.service_providers ++
              [{ id := freshId
                 user_id := employee.id
                 company_id := some company.id
                 service_categories := service_categories
                 hourly_rate := some (some hourly_rate)
                 emergency_rate := some (some emergency_rate)
                 created_at := now }]
            bookings := s.bookings })

/-- The `Booking(...)` document `create_booking` constructs for customer
`u`, request `booking_data` and the found provider: price is
`provider.get("hourly_rate", 25.0)`, replaced by
`provider.get("emergency_rate", 50.0)` when the request is an emergency;
status starts `pending`; `company_id` is copied from the provider. -/
def mkBookingDoc (u : UserDoc) (booking_data : BookingCreate)
    (provider : ProviderDoc) (freshId now : Nat) : BookingDoc where
  id := freshId
  customer_id := u.id
  provider_id := booking_data.provider_id
  company_id := provider.company_id
  service_category := booking_data.service_category
  description := booking_data.description
  scheduled_date := booking_data.scheduled_date
  status := .pending
  price :=
    if booking_data.emergency then dictGet provider.emergency_rate 50
    else dictGet provider.hourly_rate 25
  location := booking_data.location
  emergency := booking_data.emergency
  created_at := now
  updated_at := now

/-- `POST /api/bookings` (`create_booking`): 403 unless the caller is a
customer, 404 when no provider has the requested id; otherwise insert
the `mkBookingDoc` booking. -/
def create_booking (s : Store) (current_user : UserDoc) (booking_data : BookingCreate)
    (freshId now : Nat) : Except HTTPError BookingDoc × Store :=
  if current_user.role ≠ .customer then
    (.error ⟨403, "Only customers can create bookings"⟩, s)
  else
    match s.service_providers.find? (fun p => p.id == booking_data.provider_id) with
    | none => (.error ⟨404, "Service provider not found"⟩, s)
    | some provider =>
      let booking := mkBookingDoc current_user booking_data provider freshId now
      (.ok booking, { s with bookings := s.bookings ++ [booking] })

/-- The raw `db.bookings.find(query)` result of `GET /api/bookings`
(`get_bookings`), before enrichment: a customer filters on `customer_id`;
a fixer filters on `provider_id` when a `ServiceProvider` for them exists,
otherwise the query stays empty and every booking matches; a company user
filters on `company_id` when their `Company` exists, otherwise likewise
every booking matches. `.to_list(100)` truncates to 100 documents. -/
def bookings_query (s : Store) (current_user : UserDoc) : List BookingDoc :=
  let matched : List BookingDoc :=
    match current_user.role with
    | .customer => s.bookings.filter (fun b => b.customer_id == current_user.id)
    | .freelance_fixer | .employee_fixer =>
      match s.service_providers.find? (fun p => p.user_id == current_user.id) with
      | some provider => s.bookings.filter (fun b => b.provider_id == provider.id)
      | none => s.bookings
    | .company =>
      match s.companies.find? (fun c => c.owner_id == current_user.id) with
      | some company => s.bookings.filter (fun b => b.company_id == some company.id)
      | none => s.bookings
  matched.take 100

/-- The read-time join `get_bookings` performs on each returned booking. -/
structure EnrichedBooking where
  booking : BookingDoc
  customer : Option UserDoc
  provider : Option ProviderDoc
  provider_user : Option UserDoc
deriving DecidableEq, Repr

/-- Enrich one booking with its customer, provider and provider's user. -/
def enrich (s : Store) (b : BookingDoc) : EnrichedBooking :=
  let provider_data := s.service_providers.find? (fun p => p.id == b.provider_id)
  { booking := b
    customer := s.users.find? (fun u => u.id == b.customer_id)
    provider := provider_data
    provider_user := provider_data.bind
      (fun p => s.users.find? (fun u => u.id == p.user_id)) }

/-- `GET /api/bookings` (`get_bookings`): the role-scoped query result,
each document enriched. -/
def get_bookings (s : Store) (current_user : UserDoc) : List EnrichedBooking :=
  (bookings_query s current_user).map (enrich s)

/-- The authorization check block of `update_booking_status`: a customer is
denied when the booking's `customer_id` is not theirs; a fixer is denied
when they have no `ServiceProvider` or the booking's `provider_id` is not
their provider's id; any other role (that is, `company`) matches neither
branch and is never denied. -/
def status_update_denied (s : Store) (current_user : UserDoc)
    (booking : BookingDoc) : Bool :=
  if current_user.role = .customer ∧ booking.customer_id ≠ current_user.id then
    true
  else if current_user.role = .freelance_fixer ∨ current_user.role = .employee_fixer then
    match s.service_providers.find? (fun p => p.user_id == current_user.id) with
    | none => true
    | some provider => booking.provider_id ≠ provider.id
  else false

/-- `PUT /api/bookings/{booking_id}/status` (`update_booking_status`):
404 when no booking has the id; 403 when `status_update_denied`. On the
success path the first booking with the id gets `status` and
`updated_at := now` `$set`. -/
def update_booking_status (s : Store) (current_user : UserDoc)
    (booking_id : Nat) (status : BookingStatus) (now : Nat) :
    Except HTTPError Unit × Store :=
  match s.bookings.find? (fun b => b.id == booking_id) with
  | none => (.error ⟨404, "Booking not found"⟩, s)
  | some booking =>
    if status_update_denied s current_user booking then
      (.error ⟨403, "Not authorized"⟩, s)
    else
      let bookings := update_first (fun b => b.id == booking_id)
        (fun b => { b with status := status, updated_at := now }) s.bookings
      (.ok (), { s with bookings := bookings })

/-- The payload the external auth provider returns for a session id. -/
structure SessionData where
  email : String
  name : String
  picture : Option String := none
  session_token : String
deriving DecidableEq, Repr

/-- Outcome of the upstream call in `verify_session`: the HTTP request
either raises (network failure) or yields a response with a status code
and, when usable, session data. -/
inductive UpstreamResult where
  | failure (msg : String)
  | response (status_code : Nat) (data : SessionData)
deriving DecidableEq, Repr

/-- Exceptions inside the `try` block of `verify_session`: the
explicitly raised `HTTPException(401)` or any other exception (the
upstream client raising). -/
inductive InnerExc where
  | http (e : HTTPError)
  | exc (msg : String)
deriving DecidableEq, Repr

/-- The body of the `try` block of `verify_session`: non-200 upstream
raises `HTTPException(401, "Invalid session")`; otherwise the user is
looked up by email, its session token updated when found, and a fresh
user with role `customer` inserted when not. -/
def verify_session_try (s : Store) (upstream : UpstreamResult)
    (freshId now : Nat) : Except InnerExc ((UserDoc × Bool) × Store) :=
  match upstream with
  | .failure msg => .error (.exc msg)
  | .response status_code user_data =>
    if status_code ≠ 200 then .error (.http ⟨401, "Invalid session"⟩)
    else
      match s.users.find? (fun u => u.email == user_data.email) with
      | some existing_user =>
        let users := update_first (fun u => u.email == user_data.email)
          (fun u => { u with session_token := some user_data.session_token }) s.users
        .ok ((({ existing_user with session_token := some user_data.session_token }),
              false),
             { s with users := users })
      | none =>
        let user : UserDoc :=
          { id := freshId
            email := user_data.email
            name := user_data.name
            role := .customer
            picture := user_data.picture
            session_token := some user_data.session_token
            created_at := now }
        .ok ((user, true), { s with users := s.users ++ [user] })

/-- The message `str(e)` the blanket handler reports; its exact rendering
is abstracted to the carried detail or message. -/
def innerExcMessage : InnerExc → String
  | .http e => e.detail
  | .exc msg => msg

/-- `POST /api/auth/session` (`verify_session`): the whole body sits in
`try: ... except Exception as e: raise HTTPException(500, str(e))`, so
every exception of the body — the explicit 401 for a non-200 upstream
response included — surfaces as a 500. -/
def verify_session (s : Store) (upstream : UpstreamResult)
    (freshId now : Nat) : Except HTTPError (UserDoc × Bool) × Store :=
  match verify_session_try s upstream freshId now with
  | .ok (resp, s2) => (.ok resp, s2)
  | .error e => (.error ⟨500, innerExcMessage e⟩, s)


/-! Concrete fixtures used to evaluate the operations at specific inputs. -/

/-- A customer user, also the customer of `bk1`. -/
def uCust : UserDoc where
  id := 1
  email := "c@x"
  name := "C"
  role := .customer

/-- A company-role user unrelated to `bk1`. -/
def uCo : UserDoc where
  id := 99
  email := "co@x"
  name := "Co"
  role := .company

/-- A booking by customer 1 with provider 2 and no company. -/
def bk1 : BookingDoc where
  id := 10
  customer_id := 1
  provider_id := 2
  service_category := .electrical
  description := "fix"
  scheduled_date := 3
  location := "loc"

/-- A store holding `uCust`, `uCo` and the single booking `bk1`. -/
def s1 : Store where
  users := [uCust, uCo]
  bookings := [bk1]

/-- A provider document whose rate keys are present but hold null. -/
def pNull : ProviderDoc where
  id := 5
  user_id := 9
  hourly_rate := some none
  emergency_rate := some none

/-- A provider with numeric rates 30 / 60 for user 8. -/
def pRate : ProviderDoc where
  id := 6
  user_id := 8
  hourly_rate := some (some 30)
  emergency_rate := some (some 60)

/-- A freelance-fixer user owning `pRate`. -/
def uFree : UserDoc where
  id := 8
  email := "fr@x"
  name := "Fr"
  role := .freelance_fixer

/-- A customer used for booking-creation runs. -/
def uC2 : UserDoc where
  id := 7
  email := "b@x"
  name := "B"
  role := .customer

/-- An employee-fixer user owning `pNull` (user id 9). -/
def uEmpFix : UserDoc where
  id := 9
  email := "ef@x"
  name := "Ef"
  role := .employee_fixer

/-- Store with the null-rate and numeric-rate providers. -/
def sProv : Store where
  users := [uFree, uEmpFix]
  service_providers := [pNull, pRate]

/-- A non-emergency booking request against the null-rate provider. -/
def dNull : BookingCreate where
  provider_id := 5
  service_category := .plumbing
  description := "d"
  scheduled_date := 1
  location := "l"
  emergency := false

/-- An emergency booking request against the numeric-rate provider. -/
def dEm : BookingCreate where
  provider_id := 6
  service_category := .plumbing
  description := "d"
  scheduled_date := 1
  location := "l"
  emergency := true

/-- A booking request whose provider id (77) matches no provider. -/
def dMissing : BookingCreate where
  provider_id := 77
  service_category := .plumbing
  description := "d"
  scheduled_date := 1
  location := "l"
  emergency := false

/-- A freelance-fixer user with no `ServiceProvider` document anywhere. -/
def uFixNoP : UserDoc where
  id := 3
  email := "f@x"
  name := "F"
  role := .freelance_fixer

/-- A booking unrelated to `uFixNoP` (provider 42, customer 7). -/
def bk3 : BookingDoc where
  id := 11
  customer_id := 7
  provider_id := 42
  service_category := .technical
  description := "t"
  scheduled_date := 1
  location := "l"

/-- Store with the provider-less fixer and the unrelated booking `bk3`. -/
def s3 : Store where
  users := [uFixNoP]
  bookings := [bk3]

/-- A company owner (user 20). -/
def uOwner : UserDoc where
  id := 20
  email := "o@x"
  name := "O"
  role := .company

/-- A prospective employee user (id 21, email `e@x`). -/
def uEmp : UserDoc where
  id := 21
  email := "e@x"
  name := "E"
  role := .customer

/-- The owner's company, with user 21 already in `employees`. -/
def co5 : CompanyDoc where
  id := 30
  name := "N"
  owner_id := 20
  email := "o@x"
  phone := ""
  address := ""
  employees := [21]

/-- Store for a duplicate `add_employee` run. -/
def s5 : Store where
  users := [uOwner, uEmp]
  companies := [co5]

/-- Session data the upstream auth provider could return. -/
def sdX : SessionData where
  email := "s@x"
  name := "S"
  session_token := "t"

/-- The empty store. -/
def sEmpty : Store := {}

/-- The `Company` document `complete_profile` inserts for role `company`. -/
def mkCompanyDoc (u : UserDoc) (phone address : Option String)
    (fid now : Nat) : CompanyDoc where
  id := fid
  name := u.name ++ "\x27s Company"
  owner_id := u.id
  email := u.email
  phone := phone.getD ""
  address := address.getD ""
  created_at := now

/-- The default `ServiceProvider` document `complete_profile` inserts for
role `freelance_fixer`. -/
def mkFreelanceProviderDoc (u : UserDoc) (fid now : Nat) : ProviderDoc where
  id := fid
  user_id := u.id
  service_categories := []
  hourly_rate := some (some 25)
  emergency_rate := some (some 50)
  created_at := now

/-! Helper lemmas about the Mongo `update_one` model. -/

theorem update_first_length {α : Type _} (p : α → Bool) (f : α → α) (l : List α) :
    (update_first p f l).length = l.length := by
  induction l with
  | nil => rfl
  | cons x xs ih =>
    simp only [update_first]
    split <;> simp [ih]

theorem update_first_cons_pos {α : Type _} (p : α → Bool) (f : α → α)
    (x : α) (xs : List α) (hx : p x = true) :
    update_first p f (x :: xs) = f x :: xs := by
  simp [update_first, hx]

theorem update_first_cons_neg {α : Type _} (p : α → Bool) (f : α → α)
    (x : α) (xs : List α) (hx : ¬ p x = true) :
    update_first p f (x :: xs) = x :: update_first p f xs := by
  simp [update_first, hx]

theorem update_first_getElem? {α : Type _} (p : α → Bool) (f : α → α)
    (l : List α) (i : Nat) :
    (update_first p f l)[i]? = l[i]? ∨
    (update_first p f l)[i]? = (l[i]?).map f := by
  induction l generalizing i with
  | nil => exact Or.inl rfl
  | cons x xs ih =>
    by_cases hx : p x = true
    · rw [update_first_cons_pos p f x xs hx]
      cases i with
      | zero => exact Or.inr (by simp)
      | succ j => exact Or.inl (by simp)
    · rw [update_first_cons_neg p f x xs hx]
      cases i with
      | zero => exact Or.inl (by simp)
      | succ j =>
        rcases ih j with h | h
        · exact Or.inl (by simpa using h)
        · exact Or.inr (by simpa using h)

theorem find?_update_first {α : Type _} (p : α → Bool) (f : α → α) (l : List α)
    (hf : ∀ x, p x = true → p (f x) = true) :
    (update_first p f l).find? p = (l.find? p).map f := by
  induction l with
  | nil => rfl
  | cons x xs ih =>
    by_cases hx : p x = true
    · rw [update_first_cons_pos p f x xs hx,
        List.find?_cons_of_pos _ (hf x hx), List.find?_cons_of_pos _ hx]
      rfl
    · rw [update_first_cons_neg p f x xs hx,
        List.find?_cons_of_neg _ hx, List.find?_cons_of_neg _ hx, ih]

theorem update_first_eq_of_find? {α : Type _} (p : α → Bool) (f : α → α)
    (l : List α) (x : α) (hfind : l.find? p = some x) (hfx : f x = x) :
    update_first p f l = l := by
  induction l with
  | nil => simp at hfind
  | cons y ys ih =>
    by_cases hy : p y = true
    · rw [List.find?_cons_of_pos _ hy] at hfind
      have hxy : y = x := by injection hfind
      subst hxy
      rw [update_first_cons_pos p f y ys hy, hfx]
    · rw [List.find?_cons_of_neg _ hy] at hfind
      rw [update_first_cons_neg p f y ys hy, ih hfind]

/-! Claim theorems. -/

/-- C4: `complete_profile` with role `company` creates exactly one `Company`
whose `owner_id` is the caller's id (and no `ServiceProvider`); with role
`freelance_fixer` exactly one `ServiceProvider` for the caller with
hourly_rate 25.0 and emergency_rate 50.0 (and no `Company`); with role
`customer` or `employee_fixer` neither is created — so in every call at
most one of the two is created, never both. -/
theorem complete_profile_creates (s : Store) (u : UserDoc)
    (phone address : Option String) (fid now : Nat) :
    ((complete_profile s u .company phone address fid now).companies =
        s.companies ++ [mkCompanyDoc u phone address fid now] ∧
      (mkCompanyDoc u phone address fid now).owner_id = u.id ∧
      (complete_profile s u .company phone address fid now).service_providers =
        s.service_providers) ∧
    ((complete_profile s u .freelance_fixer phone address fid now).service_providers =
        s.service_providers ++ [mkFreelanceProviderDoc u fid now] ∧
      (mkFreelanceProviderDoc u fid now).user_id = u.id ∧
      (mkFreelanceProviderDoc u fid now).hourly_rate = some (some 25) ∧
      (mkFreelanceProviderDoc u fid now).emergency_rate = some (some 50) ∧
      (complete_profile s u .freelance_fixer phone address fid now).companies =
        s.companies) ∧
    ((complete_profile s u .customer phone address fid now).companies = s.companies ∧
      (complete_profile s u .customer phone address fid now).service_providers =
        s.service_providers) ∧
    ((complete_profile s u .employee_fixer phone address fid now).companies =
        s.companies ∧
      (complete_profile s u .employee_fixer phone address fid now).service_providers =
        s.service_providers) :=
  ⟨⟨rfl, rfl, rfl⟩, ⟨rfl, rfl, rfl, rfl, rfl⟩, ⟨rfl, rfl⟩, ⟨rfl, rfl⟩⟩

/-- C8 (amended): `complete_profile` unconditionally overwrites the stored
user's `role` (together with `phone` and `address`) on every call, whatever
the previously stored role was — the role is not fixed at the first profile
completion. -/
theorem complete_profile_overwrites_role (s : Store) (u : UserDoc) (role : UserRole)
    (phone address : Option String) (fid now : Nat) (x : UserDoc)
    (h : s.users.find? (fun v => v.id == u.id) = some x) :
    (complete_profile s u role phone address fid now).users.find?
      (fun v => v.id == u.id) =
      some { x with role := role, phone := phone, address := address } := by
  have husers : (complete_profile s u role phone address fid now).users =
      update_first (fun v => v.id == u.id)
        (fun v => { v with role := role, phone := phone, address := address })
        s.users := by
    cases role <;> simp [complete_profile]
  rw [husers, find?_update_first (fun v => v.id == u.id)
    (fun v => { v with role := role, phone := phone, address := address })
    s.users (fun v hv => hv), h]
  rfl

/-- C8 witness: a concrete later call switches a stored customer to role
`company`. -/
theorem complete_profile_overwrites_role_witness :
    (complete_profile s1 uCust .company none none 50 7).users.find?
      (fun v => v.id == uCust.id) =
      some { uCust with role := .company, phone := none, address := none } :=
  complete_profile_overwrites_role s1 uCust .company none none 50 7 uCust rfl

/-- C8 counterexample: after a `complete_profile` run left user 1 with role
`customer`, a second run changes the same user's role to `company`; the
role is therefore not set at most once. -/
theorem complete_profile_role_change_cex :
    ((complete_profile s1 uCust .customer none none 60 0).users.find?
        (fun v => v.id == 1)).map UserDoc.role = some UserRole.customer ∧
    ((complete_profile (complete_profile s1 uCust .customer none none 60 0)
          uCust .company none none 61 1).users.find?
        (fun v => v.id == 1)).map UserDoc.role = some UserRole.company :=
  ⟨rfl, rfl⟩

/-- C1 (amended): `update_booking_status` fails 404 when no booking has the
id; fails 403 for a customer whose id differs from the booking's
`customer_id`, and for a fixer with no `ServiceProvider` or whose
provider's id differs from the booking's `provider_id`. A requester with
role `company`, however, matches neither authorization branch and is
always authorized: for every existing booking, their update succeeds. -/
theorem update_booking_status_authorization (s : Store) (u : UserDoc)
    (bid : Nat) (st : BookingStatus) (now : Nat) :
    (s.bookings.find? (fun b => b.id == bid) = none →
      update_booking_status s u bid st now = (.error ⟨404, "Booking not found"⟩, s)) ∧
    (∀ b, s.bookings.find? (fun c => c.id == bid) = some b →
      u.role = .customer → b.customer_id ≠ u.id →
      update_booking_status s u bid st now = (.error ⟨403, "Not authorized"⟩, s)) ∧
    (∀ b, s.bookings.find? (fun c => c.id == bid) = some b →
      (u.role = .freelance_fixer ∨ u.role = .employee_fixer) →
      s.service_providers.find? (fun p => p.user_id == u.id) = none →
      update_booking_status s u bid st now = (.error ⟨403, "Not authorized"⟩, s)) ∧
    (∀ b p, s.bookings.find? (fun c => c.id == bid) = some b →
      (u.role = .freelance_fixer ∨ u.role = .employee_fixer) →
      s.service_providers.find? (fun q => q.user_id == u.id) = some p →
      b.provider_id ≠ p.id →
      update_booking_status s u bid st now = (.error ⟨403, "Not authorized"⟩, s)) ∧
    (∀ b, s.bookings.find? (fun c => c.id == bid) = some b →
      u.role = .company →
      (update_booking_status s u bid st now).1 = .ok ()) := by
  refine ⟨?_, ?_, ?_, ?_, ?_⟩
  · intro h
    simp [update_booking_status, h]
  · intro b hb hrole hne
    simp [update_booking_status, hb, status_update_denied, hrole, hne]
  · intro b hb hrole hpnone
    rcases hrole with h | h <;>
      simp [update_booking_status, hb, status_update_denied, h, hpnone]
  · intro b p hb hrole hp hne
    rcases hrole with h | h <;>
      simp [update_booking_status, hb, status_update_denied, h, hp, hne]
  · intro b hb hrole
    simp [update_booking_status, hb, status_update_denied, hrole]

/-- C1 witness: on the concrete store `s1`, a missing booking id yields
404, a foreign customer yields 403, and the company-role user `uCo`
succeeds. -/
theorem update_booking_status_authorization_witness :
    update_booking_status s1 uCust 77 .confirmed 5 =
      (.error ⟨404, "Booking not found"⟩, s1) ∧
    update_booking_status s1 uC2 10 .confirmed 5 =
      (.error ⟨403, "Not authorized"⟩, s1) ∧
    (update_booking_status s1 uCo 10 .cancelled 6).1 = .ok () :=
  ⟨(update_booking_status_authorization s1 uCust 77 .confirmed 5).1 rfl,
   (update_booking_status_authorization s1 uC2 10 .confirmed 5).2.1 bk1 rfl rfl
     (by decide),
   (update_booking_status_authorization s1 uCo 10 .cancelled 6).2.2.2.2 bk1 rfl rfl⟩

/-- C1 counterexample: the company-role user `uCo` (id 99) is neither the
customer nor the provider of booking 10 — `s1` holds no `Company` at all —
yet their status update succeeds, so a company requester is not "never
authorized". -/
theorem update_booking_status_company_bypass_cex :
    (update_booking_status s1 uCo 10 .confirmed 5).1 = .ok () ∧
    uCo.role = .company ∧
    bk1.customer_id ≠ uCo.id ∧
    s1.companies = [] :=
  ⟨rfl, rfl, by decide, rfl⟩

/-- C10: a successful `update_booking_status` changes only the matched
booking's `status` and `updated_at` — at every list position the `id`,
`customer_id`, `provider_id`, `company_id`, `service_category`,
`description`, `scheduled_date`, `price`, `location`, `emergency` and
`created_at` fields are unchanged, and each stored booking is either
entirely unchanged or has its status set to the requested value and
`updated_at` set to `now`; users, companies and providers are untouched;
and a 404/403 failure leaves the whole store unchanged. -/
theorem update_booking_status_frame (s : Store) (u : UserDoc)
    (bid : Nat) (st : BookingStatus) (now : Nat) :
    (∀ s2, update_booking_status s u bid st now = (.ok (), s2) →
      s2.users = s.users ∧
      s2.companies = s.companies ∧
      s2.service_providers = s.service_providers ∧
      s2.bookings.length = s.bookings.length ∧
      ∀ i : Nat,
        (s2.bookings[i]?).map BookingDoc.id = (s.bookings[i]?).map BookingDoc.id ∧
        (s2.bookings[i]?).map BookingDoc.customer_id =
          (s.bookings[i]?).map BookingDoc.customer_id ∧
        (s2.bookings[i]?).map BookingDoc.provider_id =
          (s.bookings[i]?).map BookingDoc.provider_id ∧
        (s2.bookings[i]?).map BookingDoc.company_id =
          (s.bookings[i]?).map BookingDoc.company_id ∧
        (s2.bookings[i]?).map BookingDoc.service_category =
          (s.bookings[i]?).map BookingDoc.service_category ∧
        (s2.bookings[i]?).map BookingDoc.description =
          (s.bookings[i]?).map BookingDoc.description ∧
        (s2.bookings[i]?).map BookingDoc.scheduled_date =
          (s.bookings[i]?).map BookingDoc.scheduled_date ∧
        (s2.bookings[i]?).map BookingDoc.price =
          (s.bookings[i]?).map BookingDoc.price ∧
        (s2.bookings[i]?).map BookingDoc.location =
          (s.bookings[i]?).map BookingDoc.location ∧
        (s2.bookings[i]?).map BookingDoc.emergency =
          (s.bookings[i]?).map BookingDoc.emergency ∧
        (s2.bookings[i]?).map BookingDoc.created_at =
          (s.bookings[i]?).map BookingDoc.created_at ∧
        (s2.bookings[i]? = s.bookings[i]? ∨
          ((s2.bookings[i]?).map BookingDoc.status = some st ∧
           (s2.bookings[i]?).map BookingDoc.updated_at = some now))) ∧
    (∀ e s2, update_booking_status s u bid st now = (.error e, s2) → s2 = s) := by
  constructor
  · intro s2 h
    cases hfind : s.bookings.find? (fun b => b.id == bid) with
    | none =>
      simp only [update_booking_status, hfind] at h
      simp at h
    | some b =>
      simp only [update_booking_status, hfind] at h
      by_cases hd : status_update_denied s u b = true
      · rw [if_pos hd] at h
        simp at h
      · rw [if_neg hd] at h
        injection h with h1 h2
        have hbk : s2.bookings = update_first (fun c => c.id == bid)
            (fun c => { c with status := st, updated_at := now }) s.bookings :=
          (congrArg Store.bookings h2).symm
        have hus : s2.users = s.users := (congrArg Store.users h2).symm
        have hco : s2.companies = s.companies := (congrArg Store.companies h2).symm
        have hsp : s2.service_providers = s.service_providers :=
          (congrArg Store.service_providers h2).symm
        refine ⟨hus, hco, hsp, by rw [hbk]; exact update_first_length _ _ _, ?_⟩
        intro i
        rw [hbk]
        rcases update_first_getElem? (fun c => c.id == bid)
            (fun c => { c with status := st, updated_at := now }) s.bookings i with
          hg | hg <;> rw [hg]
        · exact ⟨rfl, rfl, rfl, rfl, rfl, rfl, rfl, rfl, rfl, rfl, rfl, Or.inl rfl⟩
        · cases hob : s.bookings[i]? with
          | none => exact ⟨rfl, rfl, rfl, rfl, rfl, rfl, rfl, rfl, rfl, rfl, rfl,
              Or.inl rfl⟩
          | some b0 => exact ⟨rfl, rfl, rfl, rfl, rfl, rfl, rfl, rfl, rfl, rfl, rfl,
              Or.inr ⟨rfl, rfl⟩⟩
  · intro e s2 h
    cases hfind : s.bookings.find? (fun b => b.id == bid) with
    | none =>
      simp only [update_booking_status, hfind] at h
      injection h with h1 h2
      exact h2.symm
    | some b =>
      simp only [update_booking_status, hfind] at h
      by_cases hd : status_update_denied s u b = true
      · rw [if_pos hd] at h
        injection h with h1 h2
        exact h2.symm
      · rw [if_neg hd] at h
        injection h with h1 h2
        simp at h1

/-- C10 witness: the booking's own customer updates booking 10 on `s1`;
the store keeps its users and booking count, and position 0 keeps its
customer while showing the new status. -/
theorem update_booking_status_frame_witness :
    ((update_booking_status s1 uCust 10 .confirmed 5).2).users = s1.users ∧
    ((update_booking_status s1 uCust 10 .confirmed 5).2).bookings.length =
      s1.bookings.length ∧
    (((update_booking_status s1 uCust 10 .confirmed 5).2).bookings[0]?).map
      BookingDoc.customer_id = (s1.bookings[0]?).map BookingDoc.customer_id := by
  have h := (update_booking_status_frame s1 uCust 10 .confirmed 5).1
    ((update_booking_status s1 uCust 10 .confirmed 5).2) rfl
  exact ⟨h.1, h.2.2.2.1, (h.2.2.2.2 0).2.1⟩

/-- C7: `create_booking` fails 403 when the caller's role is not
`customer` and 404 when no provider has the requested id, in both cases
leaving the store unchanged (no booking created); on success it returns
and appends exactly the `mkBookingDoc` booking, whose status is `pending`
and whose `company_id` equals the provider's `company_id`, touching no
other collection. -/
theorem create_booking_spec (s : Store) (u : UserDoc) (data : BookingCreate)
    (fid now : Nat) :
    (u.role ≠ .customer →
      create_booking s u data fid now =
        (.error ⟨403, "Only customers can create bookings"⟩, s)) ∧
    (u.role = .customer →
      s.service_providers.find? (fun p => p.id == data.provider_id) = none →
      create_booking s u data fid now =
        (.error ⟨404, "Service provider not found"⟩, s)) ∧
    (∀ p, u.role = .customer →
      s.service_providers.find? (fun q => q.id == data.provider_id) = some p →
      create_booking s u data fid now =
        (.ok (mkBookingDoc u data p fid now),
         { s with bookings := s.bookings ++ [mkBookingDoc u data p fid now] }) ∧
      (mkBookingDoc u data p fid now).status = .pending ∧
      (mkBookingDoc u data p fid now).company_id = p.company_id) := by
  refine ⟨?_, ?_, ?_⟩
  · intro h
    simp [create_booking, h]
  · intro hrole hfind
    simp [create_booking, hrole, hfind]
  · intro p hrole hfind
    exact ⟨by simp [create_booking, hrole, hfind], rfl, rfl⟩

/-- C7 witness: on `sProv`, the freelance fixer `uFree` is refused with
403, provider id 77 yields 404, and the customer `uC2` booking provider 6
succeeds with a pending booking carrying the provider's `company_id`. -/
theorem create_booking_spec_witness :
    create_booking sProv uFree dEm 3 4 =
      (.error ⟨403, "Only customers can create bookings"⟩, sProv) ∧
    create_booking sProv uC2 dMissing 3 4 =
      (.error ⟨404, "Service provider not found"⟩, sProv) ∧
    create_booking sProv uC2 dEm 3 4 =
      (.ok (mkBookingDoc uC2 dEm pRate 3 4),
       { sProv with bookings := sProv.bookings ++ [mkBookingDoc uC2 dEm pRate 3 4] }) ∧
    (mkBookingDoc uC2 dEm pRate 3 4).status = .pending :=
  ⟨(create_booking_spec sProv uFree dEm 3 4).1 (by decide),
   (create_booking_spec sProv uC2 dMissing 3 4).2.1 rfl rfl,
   ((create_booking_spec sProv uC2 dEm 3 4).2.2 pRate rfl rfl).1,
   ((create_booking_spec sProv uC2 dEm 3 4).2.2 pRate rfl rfl).2.1⟩

/-- C2 (amended): for a booking created by `create_booking`, the stored
price is the provider's `emergency_rate` (emergency) or `hourly_rate`
(non-emergency) whenever the rate key is present in the stored document,
null included: a numeric rate `r` prices the booking at `r`, while a rate
stored as null yields a null price — the 50.0 / 25.0 defaults apply only
when the rate key is absent from the document (which never happens for
providers this application inserts). -/
theorem create_booking_price_rates (s : Store) (u : UserDoc) (data : BookingCreate)
    (fid now : Nat) (p : ProviderDoc)
    (hrole : u.role = .customer)
    (hfind : s.service_providers.find? (fun q => q.id == data.provider_id) = some p) :
    ((create_booking s u data fid now).1.map BookingDoc.price =
      .ok (if data.emergency then dictGet p.emergency_rate 50
           else dictGet p.hourly_rate 25)) ∧
    (∀ r : Rat, data.emergency = true → p.emergency_rate = some (some r) →
      (create_booking s u data fid now).1.map BookingDoc.price = .ok (some r)) ∧
    (∀ r : Rat, data.emergency = false → p.hourly_rate = some (some r) →
      (create_booking s u data fid now).1.map BookingDoc.price = .ok (some r)) ∧
    (data.emergency = true → p.emergency_rate = some none →
      (create_booking s u data fid now).1.map BookingDoc.price = .ok none) ∧
    (data.emergency = false → p.hourly_rate = some none →
      (create_booking s u data fid now).1.map BookingDoc.price = .ok none) ∧
    (data.emergency = true → p.emergency_rate = none →
      (create_booking s u data fid now).1.map BookingDoc.price = .ok (some 50)) ∧
    (data.emergency = false → p.hourly_rate = none →
      (create_booking s u data fid now).1.map BookingDoc.price = .ok (some 25)) := by
  have hmain : (create_booking s u data fid now).1 =
      .ok (mkBookingDoc u data p fid now) := by
    simp [create_booking, hrole, hfind]
  refine ⟨?_, ?_, ?_, ?_, ?_, ?_, ?_⟩
  · rw [hmain]
    rfl
  · intro r hem hrate
    rw [hmain]
    simp [Except.map, mkBookingDoc, dictGet, hem, hrate]
  · intro r hem hrate
    rw [hmain]
    simp [Except.map, mkBookingDoc, dictGet, hem, hrate]
  · intro hem hrate
    rw [hmain]
    simp [Except.map, mkBookingDoc, dictGet, hem, hrate]
  · intro hem hrate
    rw [hmain]
    simp [Except.map, mkBookingDoc, dictGet, hem, hrate]
  · intro hem hrate
    rw [hmain]
    simp [Except.map, mkBookingDoc, dictGet, hem, hrate]
  · intro hem hrate
    rw [hmain]
    simp [Except.map, mkBookingDoc, dictGet, hem, hrate]

/-- C2 witness: the emergency booking against provider 6 (emergency_rate
60) is priced at 60. -/
theorem create_booking_price_rates_witness :
    (create_booking sProv uC2 dEm 3 4).1.map BookingDoc.price =
      .ok (some (60 : Rat)) :=
  (create_booking_price_rates sProv uC2 dEm 3 4 pRate rfl rfl).2.1 60 rfl rfl

/-- C2 counterexample: provider 5 stores `hourly_rate` as null ("unset"),
and the non-emergency booking against it is priced null, not the claimed
25.0 default. -/
theorem create_booking_null_rate_cex :
    pNull.hourly_rate = some none ∧
    (create_booking sProv uC2 dNull 3 4).1.map BookingDoc.price = .ok none ∧
    (Except.ok none : Except HTTPError (Option Rat)) ≠ .ok (some 25) :=
  ⟨rfl, rfl, by simp⟩

/-! Facts about the provider `$set` function. -/

theorem apply_provider_update_user_id (u : UserDoc) (cats : List ServiceCategory)
    (hr er : Option Rat) (descr : Option String) (wh : Option Unit)
    (p : ProviderDoc) :
    (apply_provider_update u cats hr er descr wh p).user_id = p.user_id := by
  simp only [apply_provider_update]
  split
  · cases hr <;> cases er <;> rfl
  · rfl

theorem apply_provider_update_rates_employee (u : UserDoc)
    (cats : List ServiceCategory) (hr er : Option Rat) (descr : Option String)
    (wh : Option Unit) (p : ProviderDoc) (hrole : u.role = .employee_fixer) :
    (apply_provider_update u cats hr er descr wh p).hourly_rate = p.hourly_rate ∧
    (apply_provider_update u cats hr er descr wh p).emergency_rate =
      p.emergency_rate := by
  simp [apply_provider_update, hrole]

/-- C6: `update_provider_profile` fails 403 unless the caller is a
freelance or employee fixer and 404 when no `ServiceProvider` has the
caller's `user_id` (store unchanged in both cases); a successful call by
an `employee_fixer` leaves every stored provider's `hourly_rate` and
`emergency_rate` unchanged, whatever rate arguments were passed; a
successful call by a `freelance_fixer` persists the provided rates on
their provider (and leaves a rate unchanged when its argument is absent). -/
theorem update_provider_profile_spec (s : Store) (u : UserDoc)
    (cats : List ServiceCategory) (hr er : Option Rat)
    (descr : Option String) (wh : Option Unit) :
    (¬ (u.role = .freelance_fixer ∨ u.role = .employee_fixer) →
      update_provider_profile s u cats hr er descr wh =
        (.error ⟨403, "Not authorized"⟩, s)) ∧
    ((u.role = .freelance_fixer ∨ u.role = .employee_fixer) →
      s.service_providers.find? (fun p => p.user_id == u.id) = none →
      update_provider_profile s u cats hr er descr wh =
        (.error ⟨404, "Provider profile not found"⟩, s)) ∧
    (u.role = .employee_fixer →
      ∀ s2, update_provider_profile s u cats hr er descr wh = (.ok (), s2) →
        s2.service_providers.length = s.service_providers.length ∧
        ∀ i : Nat,
          (s2.service_providers[i]?).map ProviderDoc.hourly_rate =
            (s.service_providers[i]?).map ProviderDoc.hourly_rate ∧
          (s2.service_providers[i]?).map ProviderDoc.emergency_rate =
            (s.service_providers[i]?).map ProviderDoc.emergency_rate) ∧
    (u.role = .freelance_fixer →
      ∀ p, s.service_providers.find? (fun q => q.user_id == u.id) = some p →
      ∀ s2, update_provider_profile s u cats hr er descr wh = (.ok (), s2) →
        s2.service_providers.find? (fun q => q.user_id == u.id) =
          some (apply_provider_update u cats hr er descr wh p) ∧
        (∀ r : Rat, hr = some r →
          (apply_provider_update u cats hr er descr wh p).hourly_rate =
            some (some r)) ∧
        (hr = none →
          (apply_provider_update u cats hr er descr wh p).hourly_rate =
            p.hourly_rate) ∧
        (∀ r : Rat, er = some r →
          (apply_provider_update u cats hr er descr wh p).emergency_rate =
            some (some r)) ∧
        (er = none →
          (apply_provider_update u cats hr er descr wh p).emergency_rate =
            p.emergency_rate)) := by
  refine ⟨?_, ?_, ?_, ?_⟩
  · intro h
    simp [update_provider_profile, h]
  · intro hrole hfind
    rcases hrole with h | h <;> simp [update_provider_profile, h, hfind]
  · intro hrole s2 h
    cases hfind : s.service_providers.find? (fun p => p.user_id == u.id) with
    | none => simp [update_provider_profile, hrole, hfind] at h
    | some q =>
      simp only [update_provider_profile, hrole, hfind] at h
      rw [if_neg (by simp)] at h
      injection h with h1 h2
      have hsp : s2.service_providers = update_first (fun p => p.user_id == u.id)
          (apply_provider_update u cats hr er descr wh) s.service_providers :=
        (congrArg Store.service_providers h2).symm
      refine ⟨by rw [hsp]; exact update_first_length _ _ _, ?_⟩
      intro i
      rw [hsp]
      rcases update_first_getElem? (fun p => p.user_id == u.id)
          (apply_provider_update u cats hr er descr wh) s.service_providers i with
        hg | hg <;> rw [hg]
      · exact ⟨rfl, rfl⟩
      · cases hob : s.service_providers[i]? with
        | none => exact ⟨rfl, rfl⟩
        | some p0 =>
          have hrates := apply_provider_update_rates_employee u cats hr er
            descr wh p0 hrole
          exact ⟨congrArg some hrates.1, congrArg some hrates.2⟩
  · intro hrole p hfind s2 h
    simp only [update_provider_profile, hrole, hfind] at h
    rw [if_neg (by simp)] at h
    injection h with h1 h2
    have hsp : s2.service_providers = update_first (fun q => q.user_id == u.id)
        (apply_provider_update u cats hr er descr wh) s.service_providers :=
      (congrArg Store.service_providers h2).symm
    have hkey : s2.service_providers.find? (fun q => q.user_id == u.id) =
        some (apply_provider_update u cats hr er descr wh p) := by
      rw [hsp, find?_update_first _ _ _ (fun q hq => by
        rw [apply_provider_update_user_id]
        exact hq), hfind]
      rfl
    refine ⟨hkey, ?_, ?_, ?_, ?_⟩
    · intro r hhr
      cases er <;> simp [apply_provider_update, hrole, hhr]
    · intro hhr
      cases er <;> simp [apply_provider_update, hrole, hhr]
    · intro r her
      cases hr <;> simp [apply_provider_update, hrole, her]
    · intro her
      cases hr <;> simp [apply_provider_update, hrole, her]

/-- C6 witness: on `sProv`, a customer is refused 403, a fixer without a
provider document gets 404, the employee fixer's rate arguments (7 / 8)
are ignored at every stored provider, and the freelance fixer's provided
hourly rate 30 is persisted. -/
theorem update_provider_profile_spec_witness :
    update_provider_profile sProv uC2 [] (some 7) (some 8) none none =
      (.error ⟨403, "Not authorized"⟩, sProv) ∧
    update_provider_profile s3 uFixNoP [] none none none none =
      (.error ⟨404, "Provider profile not found"⟩, s3) ∧
    ((update_provider_profile sProv uEmpFix [] (some 7) (some 8) none
        none).2.service_providers[0]?).map ProviderDoc.hourly_rate =
      (sProv.service_providers[0]?).map ProviderDoc.hourly_rate ∧
    (apply_provider_update uFree [.electrical] (some 30) none none none
        pRate).hourly_rate = some (some 30) := by
  refine ⟨?_, ?_, ?_, ?_⟩
  · exact (update_provider_profile_spec sProv uC2 [] (some 7) (some 8)
      none none).1 (by decide)
  · exact (update_provider_profile_spec s3 uFixNoP [] none none none
      none).2.1 (Or.inl rfl) rfl
  · exact (((update_provider_profile_spec sProv uEmpFix [] (some 7) (some 8)
      none none).2.2.1 rfl
      ((update_provider_profile sProv uEmpFix [] (some 7) (some 8) none
        none).2) rfl).2 0).1
  · exact ((update_provider_profile_spec sProv uFree [.electrical] (some 30)
      none none none).2.2.2 rfl pRate rfl
      ((update_provider_profile sProv uFree [.electrical] (some 30) none
        none none).2) rfl).2.1 30 rfl

/-- C5: `add_employee` fails 403 unless the caller's role is `company`,
404 when the caller owns no `Company` or no user matches the email (store
unchanged in each case); on success the target user's role becomes
`employee_fixer` with `company_id` set to the company's id, a new
`ServiceProvider` with the given rates and categories is appended, and
the target's id is added to the company's employee set — where a
duplicate add leaves the employee set unchanged but still appends a
second `ServiceProvider` record. -/
theorem add_employee_spec (s : Store) (owner : UserDoc) (email : String)
    (hr er : Rat) (cats : List ServiceCategory) (fid now : Nat) :
    (owner.role ≠ .company →
      add_employee s owner email hr er cats fid now =
        (.error ⟨403, "Not authorized"⟩, s)) ∧
    (owner.role = .company →
      s.companies.find? (fun c => c.owner_id == owner.id) = none →
      add_employee s owner email hr er cats fid now =
        (.error ⟨404, "Company not found"⟩, s)) ∧
    (∀ c, owner.role = .company →
      s.companies.find? (fun d => d.owner_id == owner.id) = some c →
      s.users.find? (fun v => v.email == email) = none →
      add_employee s owner email hr er cats fid now =
        (.error ⟨404, "Employee not found"⟩, s)) ∧
    (∀ c emp, owner.role = .company →
      s.companies.find? (fun d => d.owner_id == owner.id) = some c →
      s.users.find? (fun v => v.email == email) = some emp →
      ∀ s2, add_employee s owner email hr er cats fid now = (.ok (), s2) →
        s2.users = update_first (fun v => v.id == emp.id)
          (fun v => { v with role := .employee_fixer, company_id := some c.id })
          s.users ∧
        (∀ v2, s2.users.find? (fun v => v.id == emp.id) = some v2 →
          v2.role = .employee_fixer ∧ v2.company_id = some c.id) ∧
        (∃ pr : ProviderDoc,
          s2.service_providers = s.service_providers ++ [pr] ∧
          pr.user_id = emp.id ∧ pr.company_id = some c.id ∧
          pr.hourly_rate = some (some hr) ∧ pr.emergency_rate = some (some er) ∧
          pr.service_categories = cats) ∧
        s2.service_providers.length = s.service_providers.length + 1 ∧
        s2.companies = update_first (fun d => d.id == c.id)
          (addToSetEmployees emp.id) s.companies ∧
        (s.companies.find? (fun d => d.id == c.id) = some c →
          emp.id ∈ c.employees → s2.companies = s.companies) ∧
        s2.bookings = s.bookings) := by
  refine ⟨?_, ?_, ?_, ?_⟩
  · intro h
    simp [add_employee, h]
  · intro hrole hc
    simp [add_employee, hrole, hc]
  · intro c hrole hc hu
    simp [add_employee, hrole, hc, hu]
  · intro c emp hrole hc hu s2 h
    simp only [add_employee, hrole, hc, hu] at h
    rw [if_neg (by simp)] at h
    injection h with h1 h2
    have husers : s2.users = update_first (fun v => v.id == emp.id)
        (fun v => { v with role := .employee_fixer, company_id := some c.id })
        s.users := (congrArg Store.users h2).symm
    have hsp := (congrArg Store.service_providers h2).symm
    have hco : s2.companies = update_first (fun d => d.id == c.id)
        (addToSetEmployees emp.id) s.companies :=
      (congrArg Store.companies h2).symm
    refine ⟨husers, ?_, ⟨_, hsp, rfl, rfl, rfl, rfl, rfl⟩, by simp [hsp], hco,
      ?_, (congrArg Store.bookings h2).symm⟩
    · intro v2 hv2
      rw [husers, find?_update_first (fun v => v.id == emp.id)
        (fun v => { v with role := .employee_fixer, company_id := some c.id })
        s.users (fun v hv => hv)] at hv2
      obtain ⟨x, hx, hfx⟩ := Option.map_eq_some'.mp hv2
      rw [← hfx]
      exact ⟨rfl, rfl⟩
    · intro hcc hmem
      rw [hco]
      exact update_first_eq_of_find? _ _ _ c hcc (by simp [addToSetEmployees, hmem])

/-- C5 witness: on `s5` — where company 30 already lists user 21 as an
employee — adding user 21 again by email succeeds, leaves the employee
set unchanged, and still appends one more `ServiceProvider`. -/
theorem add_employee_spec_witness :
    (add_employee s5 uOwner "e@x" 10 20 [] 40 41).2.companies = s5.companies ∧
    (add_employee s5 uOwner "e@x" 10 20 [] 40 41).2.service_providers.length =
      s5.service_providers.length + 1 := by
  have h := (add_employee_spec s5 uOwner "e@x" 10 20 [] 40 41).2.2.2 co5 uEmp
    rfl rfl rfl ((add_employee s5 uOwner "e@x" 10 20 [] 40 41).2) rfl
  exact ⟨h.2.2.2.2.2.1 rfl (by decide), h.2.2.2.1⟩

/-! The role-scoped booking query. -/

theorem get_bookings_map_booking (s : Store) (u : UserDoc) :
    (get_bookings s u).map EnrichedBooking.booking = bookings_query s u := by
  unfold get_bookings
  rw [List.map_map]
  have hcomp : EnrichedBooking.booking ∘ enrich s = id := funext fun b => rfl
  rw [hcomp, List.map_id]

/-- C3 (amended): with at most 100 stored bookings (the query page size),
`get_bookings` returns exactly the role-dependent scope — a customer sees
exactly the bookings whose `customer_id` is theirs; a fixer with a
`ServiceProvider` sees exactly the bookings whose `provider_id` is that
provider's id; a company user with a `Company` sees exactly the bookings
whose `company_id` is that company's id — but a fixer with no
`ServiceProvider`, or a company user with no `Company`, leaves the query
empty and receives every stored booking. -/
theorem get_bookings_scope (s : Store) (u : UserDoc)
    (hlen : s.bookings.length ≤ 100) :
    (u.role = .customer → ∀ b : BookingDoc,
      b ∈ (get_bookings s u).map EnrichedBooking.booking ↔
        b ∈ s.bookings ∧ b.customer_id = u.id) ∧
    ((u.role = .freelance_fixer ∨ u.role = .employee_fixer) →
      (∀ p, s.service_providers.find? (fun q => q.user_id == u.id) = some p →
        ∀ b : BookingDoc,
          b ∈ (get_bookings s u).map EnrichedBooking.booking ↔
            b ∈ s.bookings ∧ b.provider_id = p.id) ∧
      (s.service_providers.find? (fun q => q.user_id == u.id) = none →
        (get_bookings s u).map EnrichedBooking.booking = s.bookings)) ∧
    (u.role = .company →
      (∀ c, s.companies.find? (fun d => d.owner_id == u.id) = some c →
        ∀ b : BookingDoc,
          b ∈ (get_bookings s u).map EnrichedBooking.booking ↔
            b ∈ s.bookings ∧ b.company_id = some c.id) ∧
      (s.companies.find? (fun d => d.owner_id == u.id) = none →
        (get_bookings s u).map EnrichedBooking.booking = s.bookings)) := by
  refine ⟨?_, ?_, ?_⟩
  · intro hrole b
    rw [get_bookings_map_booking]
    simp only [bookings_query, hrole]
    rw [List.take_of_length_le (le_trans (List.length_filter_le _ _) hlen)]
    simp [List.mem_filter]
  · intro hrole
    constructor
    · intro p hp b
      rw [get_bookings_map_booking]
      rcases hrole with h | h <;>
        · simp only [bookings_query, h, hp]
          rw [List.take_of_length_le (le_trans (List.length_filter_le _ _) hlen)]
          simp [List.mem_filter]
    · intro hp
      rw [get_bookings_map_booking]
      rcases hrole with h | h <;>
        · simp only [bookings_query, h, hp]
          exact List.take_of_length_le hlen
  · intro hrole
    constructor
    · intro c hc b
      rw [get_bookings_map_booking]
      simp only [bookings_query, hrole, hc]
      rw [List.take_of_length_le (le_trans (List.length_filter_le _ _) hlen)]
      simp [List.mem_filter]
    · intro hc
      rw [get_bookings_map_booking]
      simp only [bookings_query, hrole, hc]
      exact List.take_of_length_le hlen

/-- C3 witness: the customer `uCust` sees booking `bk1`, whose
`customer_id` is theirs. -/
theorem get_bookings_scope_witness :
    bk1 ∈ (get_bookings s1 uCust).map EnrichedBooking.booking :=
  ((get_bookings_scope s1 uCust (by decide)).1 rfl bk1).mpr ⟨by decide, rfl⟩

/-- C3 counterexample: the freelance fixer `uFixNoP` has no
`ServiceProvider` document at all, yet `get_bookings` returns booking
`bk3` (customer 7, provider 42) to them — not the empty list the claimed
scope (bookings of their own provider id) would demand. -/
theorem get_bookings_missing_provider_cex :
    (get_bookings s3 uFixNoP).map EnrichedBooking.booking = [bk3] ∧
    uFixNoP.role = .freelance_fixer ∧
    s3.service_providers = [] :=
  ⟨rfl, rfl, rfl⟩

/-- C9 (amended): when the external auth provider's call raises, or
returns a non-200 response, `verify_session` surfaces a generic server
error (HTTP 500) — not 401 Unauthorized: the `HTTPException(401)` raised
for a non-200 upstream response is itself caught by the blanket
`except Exception` handler and re-raised as a 500. -/
theorem verify_session_upstream_error (s : Store) (upstream : UpstreamResult)
    (fid now : Nat) :
    (∀ msg, upstream = .failure msg →
      verify_session s upstream fid now = (.error ⟨500, msg⟩, s)) ∧
    (∀ code d, upstream = .response code d → code ≠ 200 →
      verify_session s upstream fid now =
        (.error ⟨500, "Invalid session"⟩, s)) := by
  constructor
  · intro msg h
    subst h
    rfl
  · intro code d h hne
    subst h
    simp [verify_session, verify_session_try, hne, innerExcMessage]

/-- C9 witness: a concrete 404 upstream response surfaces as a 500. -/
theorem verify_session_upstream_error_witness :
    verify_session sEmpty (.response 404 sdX) 1 2 =
      (.error ⟨500, "Invalid session"⟩, sEmpty) :=
  (verify_session_upstream_error sEmpty (.response 404 sdX) 1 2).2 404 sdX rfl
    (by decide)

/-- C9 counterexample: a 503 upstream response surfaces with status code
500, not the 401 Unauthorized the claim states. -/
theorem verify_session_non200_cex :
    verify_session sEmpty (.response 503 sdX) 1 2 =
      (.error ⟨500, "Invalid session"⟩, sEmpty) ∧
    (500 : Nat) ≠ 401 :=
  ⟨rfl, by decide⟩
